import Mathlib

/-!
Verification of the risk-computation engine of `src/app.js` (VNI Pediátrica —
Predição Precoce).  The engine is the pure function `computeRisk` together
with the parsing helpers `parseFiO2`, `clamp`, `toMonths`, `calcSF` and
`pctChange`.

Modelling conventions:
* JavaScript numbers are modelled as rationals (`ℚ`).  Every numeric input
  field of the snapshot is modelled *after* `safeNum`, i.e. as an
  `Option ℚ` (`none` = the null that `safeNum` returns for a missing or
  non-numeric field, `some q` = the finite parsed number).  `safeNum`
  itself (string trimming, comma→dot) is therefore the identity on this
  representation.
* `Math.round` rounds half up, modelled as `⌊q + 1/2⌋`.
* `toFixed(0)` (used only inside factor labels) rounds half away from
  zero on the absolute value and re-attaches the sign, per the ECMAScript
  specification of `Number.prototype.toFixed`.
* `Array.prototype.sort` with the comparator `(a,b) => b.w - a.w` is a
  stable sort by weight descending; it is modelled by a stable insertion
  sort with the same specification.
* Enumerated form fields (`ageUnit`, `arfType`, `diag`) are strings, as in
  the code, which compares them with `===`.
-/

namespace VniPred

/-- One entry of the `factors` list built by `addFactor(w, label)`. -/
structure Factor where
  w : ℚ
  label : String
deriving Repr, DecidableEq

/-- The clinical snapshot handed to `computeRisk` (the record built by
`gather()`), with every numeric field already passed through `safeNum`. -/
structure Snapshot where
  ageValue : Option ℚ
  ageUnit : String
  arfType : String
  diag : String
  prism : Option ℚ
  rfHemodyn : Bool
  rfGcs : Bool
  rfSecretions : Bool
  rfApnea : Bool
  rfPtx : Bool
  cfHypox : Bool
  cfWork : Bool
  cfHypercap : Bool
  cfIntol : Bool
  spo2_0 : Option ℚ
  fio2_0 : Option ℚ
  epap_0 : Option ℚ
  rr_0 : Option ℚ
  hr_0 : Option ℚ
  ph_0 : Option ℚ
  pco2_0 : Option ℚ
  spo2_1 : Option ℚ
  fio2_1 : Option ℚ
  rr_1 : Option ℚ
  hr_1 : Option ℚ
  ipap_1 : Option ℚ
  epap_1 : Option ℚ
  ph_1 : Option ℚ
  pco2_1 : Option ℚ
deriving Repr, DecidableEq

/-- `parseFiO2` of `src/app.js`: null stays null; a value in (1, 100] is a
percentage and is divided by 100; anything else is returned unchanged. -/
def parseFiO2 (x : Option ℚ) : Option ℚ :=
  match x with
  | none => none
  | some n => if 1 < n ∧ n ≤ 100 then some (n / 100) else some n

/-- `clamp(n, a, b) = Math.max(a, Math.min(b, n))`, at the integer type it
is applied at (`clamp(Math.round(score), 0, 100)`). -/
def clamp (n a b : ℤ) : ℤ := max a (min b n)

/-- `toMonths` of `src/app.js`: days divide by 30.4375, years multiply by
12, any other unit string passes the value through; null stays null. -/
def toMonths (ageValue : Option ℚ) (unit : String) : Option ℚ :=
  match ageValue with
  | none => none
  | some v =>
      if unit = "days" then some (v / (30.4375 : ℚ))
      else if unit = "years" then some (v * 12)
      else some v

/-- `calcSF` of `src/app.js`: null when the saturation is null, the parsed
oxygen fraction is null, or the parsed oxygen fraction is ≤ 0; otherwise
saturation divided by the parsed fraction. -/
def calcSF (spo2 fio2 : Option ℚ) : Option ℚ :=
  match spo2, parseFiO2 fio2 with
  | some s, some f => if f ≤ 0 then none else some (s / f)
  | _, _ => none

/-- `pctChange(newV, oldV)` of `src/app.js`: null when either operand is
null or the old value is 0; otherwise `(new − old) / old × 100`. -/
def pctChange (newV oldV : Option ℚ) : Option ℚ :=
  match newV, oldV with
  | some a, some b => if b = 0 then none else some ((a - b) / b * 100)
  | _, _ => none

/-- `Math.round`: round half up. -/
def jsRound (q : ℚ) : ℤ := ⌊q + 1/2⌋

/-- `Number.prototype.toFixed(0)`: round the absolute value half up and
re-attach the sign. -/
def toFixed0 (q : ℚ) : String :=
  if q < 0 then "-" ++ toString (jsRound (-q)) else toString (jsRound q)

/-- Derived `out.sf0 = calcSF(d.spo2_0, d.fio2_0)`. -/
def sf0v (d : Snapshot) : Option ℚ := calcSF d.spo2_0 d.fio2_0

/-- Derived `out.sf1 = calcSF(d.spo2_1, d.fio2_1)`. -/
def sf1v (d : Snapshot) : Option ℚ := calcSF d.spo2_1 d.fio2_1

/-- Derived `out.drrPct` (the guard on the two operands being non-null is
kept from line 114 of the source, though `pctChange` re-checks it). -/
def drrv (d : Snapshot) : Option ℚ :=
  if d.rr_1.isSome && d.rr_0.isSome then pctChange d.rr_1 d.rr_0 else none

/-- Derived `out.dhrPct` (line 115 of the source). -/
def dhrv (d : Snapshot) : Option ℚ :=
  if d.hr_1.isSome && d.hr_0.isSome then pctChange d.hr_1 d.hr_0 else none

/-- Derived `out.dpco2 = pco2_1 − pco2_0` when both are present. -/
def dpco2v (d : Snapshot) : Option ℚ :=
  match d.pco2_0, d.pco2_1 with
  | some a, some b => some (b - a)
  | _, _ => none

/-- Age in months (line 122 of the source). -/
def ageMv (d : Snapshot) : Option ℚ := toMonths d.ageValue d.ageUnit

/-- `redFlags` (lines 103–105): any of the five red-flag checkboxes. -/
def redFlags (d : Snapshot) : Bool :=
  d.rfHemodyn || d.rfGcs || d.rfSecretions || d.rfApnea || d.rfPtx

/-- `operationalCriteria` (lines 99–101): any of the four operational
criteria checkboxes.  In the source it is read only when building the
explanation notes and the action list, never by the scoring code. -/
def operationalCriteria (d : Snapshot) : Bool :=
  d.cfHypox || d.cfWork || d.cfHypercap || d.cfIntol

/-- Score block 1 (lines 128–136): oxygenation ratio at 1–2 h. -/
def sfScore (sf1 : Option ℚ) : ℚ :=
  match sf1 with
  | some v =>
      if v < 150 then 40
      else if v < 193 then 30
      else if v < 220 then 18
      else if v < 260 then 10
      else 3
  | none => 10

/-- Labeled factors emitted by score block 1: the four bands below 260
each push an entry; the ≥260 band and the unknown fallback push none. -/
def sfFactors (sf1 : Option ℚ) : List Factor :=
  match sf1 with
  | some v =>
      if v < 150 then [⟨40, "SF 1–2 h < 150 (SF=" ++ toFixed0 v ++ ")"⟩]
      else if v < 193 then [⟨30, "SF 1–2 h < 193 (SF=" ++ toFixed0 v ++ ")"⟩]
      else if v < 220 then [⟨18, "SF 1–2 h 193–219 (SF=" ++ toFixed0 v ++ ")"⟩]
      else if v < 260 then [⟨10, "SF 1–2 h 220–259 (SF=" ++ toFixed0 v ++ ")"⟩]
      else []
  | none => []

/-- Score block 2 (lines 140–147): change in respiratory rate. -/
def rrScore (drr : Option ℚ) : ℚ :=
  match drr with
  | some v =>
      if v ≥ 0 then 18
      else if v > -10 then 12
      else if v > -20 then 7
      else 2
  | none => 6

/-- Labeled factors emitted by score block 2: only the ≥0 and >−10 bands
push an entry; the >−20 and ≤−20 bands and the unknown fallback push
none. -/
def rrFactors (drr : Option ℚ) : List Factor :=
  match drr with
  | some v =>
      if v ≥ 0 then [⟨18, "FR não melhorou / piorou"⟩]
      else if v > -10 then [⟨12, "Queda de FR < 10%"⟩]
      else []
  | none => []

/-- Score block 3 (lines 150–157): change in heart rate.  No branch of
this block pushes a factor entry in the source. -/
def hrScore (dhr : Option ℚ) : ℚ :=
  match dhr with
  | some v =>
      if v ≥ 0 then 10
      else if v > -5 then 7
      else if v > -10 then 4
      else 1
  | none => 3

/-- Score block 4 (lines 160–166): age in months. -/
def ageScore (ageM : Option ℚ) : ℚ :=
  match ageM with
  | some m =>
      if m < 6 then 10
      else if m < 12 then 6
      else 2
  | none => 4

/-- Labeled factors emitted by score block 4: only the <6 months band
pushes an entry. -/
def ageFactors (ageM : Option ℚ) : List Factor :=
  match ageM with
  | some m => if m < 6 then [⟨10, "Idade < 6 meses"⟩] else []
  | none => []

/-- Score block 5a (line 169): hypoxemic (type 1) acute respiratory
failure. -/
def arfScore (t : String) : ℚ := if t = "type1" then 10 else 0

/-- Factor emitted by score block 5a. -/
def arfFactors (t : String) : List Factor :=
  if t = "type1" then [⟨10, "IRA hipoxémica (tipo 1)"⟩] else []

/-- Score block 5b (lines 170–171): diagnosis. -/
def diagScore (dg : String) : ℚ :=
  if dg = "ards" then 12 else if dg = "pneumonia" then 8 else 0

/-- Factors emitted by score block 5b. -/
def diagFactors (dg : String) : List Factor :=
  if dg = "ards" then [⟨12, "ARDS"⟩]
  else if dg = "pneumonia" then [⟨8, "Pneumonia"⟩]
  else []

/-- Score block 6 (lines 174–181): FiO₂ at initiation, read through
`safeNum` only (not `parseFiO2`); nothing is added when it is null. -/
def fio2Score (f : Option ℚ) : ℚ :=
  match f with
  | some v =>
      if v ≥ 0.8 then 8
      else if v ≥ 0.6 then 5
      else if v ≥ 0.4 then 3
      else 1
  | none => 0

/-- Score block 7 (lines 184–189): optional PRISM score. -/
def prismScore (p : Option ℚ) : ℚ :=
  match p with
  | some v =>
      if v ≥ 10 then 10
      else if v ≥ 5 then 6
      else if v ≥ 1 then 3
      else 0
  | none => 0

/-- Score block 8 (lines 192–197): optional IPAP at 1–2 h. -/
def ipapScore (i : Option ℚ) : ℚ :=
  match i with
  | some v => if v ≥ 18 then 6 else if v ≥ 14 then 3 else 0
  | none => 0

/-- Score block 9a (lines 201–205): pCO₂ trend. -/
def dpco2Score (dp : Option ℚ) : ℚ :=
  match dp with
  | some v => if v ≥ 5 then 6 else if v ≥ 0 then 3 else 1
  | none => 0

/-- Score block 9b (lines 206–209): pH trend, only when both pH values
are present. -/
def phScore (ph0 ph1 : Option ℚ) : ℚ :=
  match ph0, ph1 with
  | some a, some b =>
      if b < a - 0.02 then 4 else if b < a + 0.01 then 2 else 0
  | _, _ => 0

/-- The accumulated total of the nine score blocks, before the red-flag
override.  Each addend mirrors one `score += …` block of the source; the
blocks are independent additions, so the running sum is their sum. -/
def rawScore (d : Snapshot) : ℚ :=
  sfScore (sf1v d) + rrScore (drrv d) + hrScore (dhrv d) +
  ageScore (ageMv d) + arfScore d.arfType + diagScore d.diag +
  fio2Score d.fio2_0 + prismScore d.prism + ipapScore d.ipap_1 +
  dpco2Score (dpco2v d) + phScore d.ph_0 d.ph_1

/-- The running score after the red-flag override of line 228:
`if(redFlags){ score = Math.max(score, 85); … }`. -/
def totalScore (d : Snapshot) : ℚ :=
  if redFlags d then max (rawScore d) 85 else rawScore d

/-- `out.score = clamp(Math.round(score), 0, 100)` (line 230). -/
def finalScore (d : Snapshot) : ℤ := clamp (jsRound (totalScore d)) 0 100

/-- The labeled factor list in push order, before the red-flag entry. -/
def baseFactors (d : Snapshot) : List Factor :=
  sfFactors (sf1v d) ++ rrFactors (drrv d) ++ ageFactors (ageMv d) ++
  arfFactors d.arfType ++ diagFactors d.diag

/-- The full factor list: the red-flag override appends
`addFactor(50, "Red flags clínicas")` after every other push. -/
def allFactors (d : Snapshot) : List Factor :=
  if redFlags d then baseFactors d ++ [⟨50, "Red flags clínicas"⟩]
  else baseFactors d

/-- Tier and badge from the final score (lines 233–245), first match from
the top. -/
def tierOf (s : ℤ) : String × String :=
  if s ≥ 85 then ("Muito alto", "ALTO RISCO")
  else if s ≥ 65 then ("Alto", "RISCO ↑")
  else if s ≥ 45 then ("Intermédio", "RISCO ↔")
  else ("Baixo", "RISCO ↓")

/-- Oxygenation context (lines 212–225): informational, never scored. -/
def oxyCtxOf (d : Snapshot) : Option String :=
  let oxy1 : List String :=
    match sf1v d with
    | some v =>
        if v < 150 then ["SF muito baixo"]
        else if v < 193 then ["SF baixo (<193)"]
        else ["SF aceitável"]
    | none => []
  let oxy2 : List String :=
    match parseFiO2 d.fio2_1 with
    | some f =>
        if f ≥ 0.7 then ["FiO₂ alta (≥0.70)"]
        else if f ≥ 0.5 then ["FiO₂ moderada (0.50–0.69)"]
        else ["FiO₂ baixa/moderada (<0.50)"]
    | none => []
  let oxy := oxy1 ++ oxy2
  if oxy.isEmpty then none else some (String.intercalate " • " oxy)

/-- Stable insertion step for the descending sort: the new element goes
in front of the first element whose weight is ≤ its own, i.e. after every
strictly heavier element and before equal-weight elements that came later
in the original list. -/
def insertFactor (f : Factor) : List Factor → List Factor
  | [] => [f]
  | g :: gs => if g.w ≤ f.w then f :: g :: gs else g :: insertFactor f gs

/-- `factors.sort((a,b) => b.w - a.w)`: stable sort by weight descending.
Folding from the right inserts earlier-listed elements last, so an
earlier element ends up before the equal-weight elements behind it. -/
def sortFactors (l : List Factor) : List Factor :=
  l.foldr insertFactor []

/-- The part of the output record `out` of `computeRisk` that carries the
engine's decisions (derived metrics, score, tier, badge, factor list and
top-factor labels).  The free-text narration (`explain`, `actions`,
`summary`, `brief`) is not modelled. -/
structure RiskOut where
  sf0 : Option ℚ
  sf1 : Option ℚ
  drrPct : Option ℚ
  dhrPct : Option ℚ
  dpco2 : Option ℚ
  oxyCtx : Option String
  score : ℤ
  tier : String
  badge : String
  factors : List Factor
  topFactors : List String
deriving Repr, DecidableEq

/-- `computeRisk` of `src/app.js`, restricted to the modelled fields. -/
def computeRisk (d : Snapshot) : RiskOut :=
  { sf0 := sf0v d
    sf1 := sf1v d
    drrPct := drrv d
    dhrPct := dhrv d
    dpco2 := dpco2v d
    oxyCtx := oxyCtxOf d
    score := finalScore d
    tier := (tierOf (finalScore d)).1
    badge := (tierOf (finalScore d)).2
    factors := allFactors d
    topFactors := ((sortFactors (allFactors d)).take 3).map Factor.label }

/-- A snapshot with every field empty / unchecked, and the form's default
selections (`ageUnit` months, `arfType` type2, `diag` bronchiolitis). -/
def blank : Snapshot :=
  { ageValue := none, ageUnit := "months", arfType := "type2"
    diag := "bronchiolitis", prism := none
    rfHemodyn := false, rfGcs := false, rfSecretions := false
    rfApnea := false, rfPtx := false
    cfHypox := false, cfWork := false, cfHypercap := false, cfIntol := false
    spo2_0 := none, fio2_0 := none, epap_0 := none, rr_0 := none
    hr_0 := none, ph_0 := none, pco2_0 := none
    spo2_1 := none, fio2_1 := none, rr_1 := none, hr_1 := none
    ipap_1 := none, epap_1 := none, ph_1 := none, pco2_1 := none }

/-- Scenario A of the spec: saturation 90 and oxygen input 60 at 1–2 h,
age 3 months, type-2 ARF, bronchiolitis, no red flags, no optional labs. -/
def scenarioA : Snapshot :=
  { blank with ageValue := some 3, spo2_1 := some 90, fio2_1 := some 60 }

/-- A snapshot whose only data is an unchanged heart rate (old = new =
100), so the heart-rate band `≥ 0` fires. -/
def dHR : Snapshot :=
  { blank with hr_0 := some 100, hr_1 := some 100 }

/-- A snapshot hitting the minimum band of each unconditional factor:
oxygenation ratio 260, respiratory rate −50 %, heart rate −20 %, age 24
months, every optional field empty. -/
def d8 : Snapshot :=
  { blank with
    ageValue := some 24
    rr_0 := some 100
    rr_1 := some 50
    hr_0 := some 100
    hr_1 := some 80
    spo2_1 := some 260
    fio2_1 := some 1 }

/-- A snapshot with a single red flag (apnea) and nothing else. -/
def dRF : Snapshot := { blank with rfApnea := true }

/-! ### Bounds on the individual score blocks -/

theorem sfScore_ge (x : Option ℚ) : 3 ≤ sfScore x := by
  rcases x with _ | v
  · norm_num [sfScore]
  · simp only [sfScore]
    split_ifs <;> norm_num

theorem rrScore_ge (x : Option ℚ) : 2 ≤ rrScore x := by
  rcases x with _ | v
  · norm_num [rrScore]
  · simp only [rrScore]
    split_ifs <;> norm_num

theorem hrScore_ge (x : Option ℚ) : 1 ≤ hrScore x := by
  rcases x with _ | v
  · norm_num [hrScore]
  · simp only [hrScore]
    split_ifs <;> norm_num

theorem ageScore_ge (x : Option ℚ) : 2 ≤ ageScore x := by
  rcases x with _ | v
  · norm_num [ageScore]
  · simp only [ageScore]
    split_ifs <;> norm_num

theorem arfScore_nonneg (t : String) : 0 ≤ arfScore t := by
  simp only [arfScore]
  split_ifs <;> norm_num

theorem diagScore_nonneg (t : String) : 0 ≤ diagScore t := by
  simp only [diagScore]
  split_ifs <;> norm_num

theorem fio2Score_nonneg (x : Option ℚ) : 0 ≤ fio2Score x := by
  rcases x with _ | v
  · norm_num [fio2Score]
  · simp only [fio2Score]
    split_ifs <;> norm_num

theorem prismScore_nonneg (x : Option ℚ) : 0 ≤ prismScore x := by
  rcases x with _ | v
  · norm_num [prismScore]
  · simp only [prismScore]
    split_ifs <;> norm_num

theorem ipapScore_nonneg (x : Option ℚ) : 0 ≤ ipapScore x := by
  rcases x with _ | v
  · norm_num [ipapScore]
  · simp only [ipapScore]
    split_ifs <;> norm_num

theorem dpco2Score_nonneg (x : Option ℚ) : 0 ≤ dpco2Score x := by
  rcases x with _ | v
  · norm_num [dpco2Score]
  · simp only [dpco2Score]
    split_ifs <;> norm_num

theorem phScore_nonneg (a b : Option ℚ) : 0 ≤ phScore a b := by
  rcases a with _ | x <;> rcases b with _ | y <;> simp only [phScore]
  · norm_num
  · norm_num
  · norm_num
  · split_ifs <;> norm_num

theorem rawScore_ge (d : Snapshot) : 8 ≤ rawScore d := by
  have h1 := sfScore_ge (sf1v d)
  have h2 := rrScore_ge (drrv d)
  have h3 := hrScore_ge (dhrv d)
  have h4 := ageScore_ge (ageMv d)
  have h5 := arfScore_nonneg d.arfType
  have h6 := diagScore_nonneg d.diag
  have h7 := fio2Score_nonneg d.fio2_0
  have h8 := prismScore_nonneg d.prism
  have h9 := ipapScore_nonneg d.ipap_1
  have h10 := dpco2Score_nonneg (dpco2v d)
  have h11 := phScore_nonneg d.ph_0 d.ph_1
  unfold rawScore
  linarith

theorem totalScore_ge (d : Snapshot) : 8 ≤ totalScore d := by
  unfold totalScore
  split_ifs
  · exact le_trans (rawScore_ge d) (le_max_left _ _)
  · exact rawScore_ge d

theorem le_jsRound (k : ℤ) (q : ℚ) (h : (k : ℚ) ≤ q) : k ≤ jsRound q := by
  unfold jsRound
  refine Int.le_floor.mpr ?_
  linarith

theorem finalScore_lb (d : Snapshot) : 8 ≤ finalScore d := by
  have h : (8 : ℤ) ≤ jsRound (totalScore d) := by
    refine le_jsRound 8 _ ?_
    have := totalScore_ge d
    push_cast
    linarith
  unfold finalScore clamp
  omega

theorem finalScore_bounds (d : Snapshot) :
    0 ≤ finalScore d ∧ finalScore d ≤ 100 := by
  unfold finalScore clamp
  omega

/-! ### Weights carried by the labeled factor entries -/

theorem sfFactors_w (x : Option ℚ) :
    ∀ f ∈ sfFactors x, f.w = 40 ∨ f.w = 30 ∨ f.w = 18 ∨ f.w = 10 := by
  rcases x with _ | v
  · simp [sfFactors]
  · simp only [sfFactors]
    split_ifs <;> simp

theorem rrFactors_w (x : Option ℚ) :
    ∀ f ∈ rrFactors x, f.w = 18 ∨ f.w = 12 := by
  rcases x with _ | v
  · simp [rrFactors]
  · simp only [rrFactors]
    split_ifs <;> simp

theorem ageFactors_w (x : Option ℚ) : ∀ f ∈ ageFactors x, f.w = 10 := by
  rcases x with _ | v
  · simp [ageFactors]
  · simp only [ageFactors]
    split_ifs <;> simp

theorem arfFactors_w (t : String) : ∀ f ∈ arfFactors t, f.w = 10 := by
  simp only [arfFactors]
  split_ifs <;> simp

theorem diagFactors_w (t : String) :
    ∀ f ∈ diagFactors t, f.w = 12 ∨ f.w = 8 := by
  simp only [diagFactors]
  split_ifs <;> simp

theorem baseFactors_w_le (d : Snapshot) :
    ∀ f ∈ baseFactors d, f.w ≤ 40 := by
  intro f hf
  simp only [baseFactors, List.mem_append] at hf
  rcases hf with ((((h | h) | h) | h) | h)
  · rcases sfFactors_w _ f h with h' | h' | h' | h' <;> rw [h'] <;> norm_num
  · rcases rrFactors_w _ f h with h' | h' <;> rw [h'] <;> norm_num
  · rw [ageFactors_w _ f h]
    norm_num
  · rw [arfFactors_w _ f h]
    norm_num
  · rcases diagFactors_w _ f h with h' | h' <;> rw [h'] <;> norm_num

/-! ### The stable descending sort keeps the red-flags entry on top -/

theorem foldr_insert_head (s : String) (l t : List Factor)
    (hl : ∀ f ∈ l, f.w ≤ 40) :
    ∃ rest, l.foldr insertFactor (⟨50, s⟩ :: t) = ⟨50, s⟩ :: rest := by
  induction l with
  | nil => exact ⟨t, rfl⟩
  | cons g l ih =>
      obtain ⟨rest, hrest⟩ := ih fun f hf => hl f (List.mem_cons_of_mem _ hf)
      refine ⟨insertFactor g rest, ?_⟩
      have hg : g.w ≤ 40 := hl g (List.mem_cons_self _ _)
      have hno : ¬ ((⟨50, s⟩ : Factor).w ≤ g.w) := by
        simp only
        intro hco
        linarith
      simp only [List.foldr_cons, hrest, insertFactor, hno, if_false]

theorem sortFactors_redflag_head (d : Snapshot) (h : redFlags d = true) :
    ∃ rest,
      sortFactors (allFactors d) = ⟨50, "Red flags clínicas"⟩ :: rest := by
  unfold sortFactors allFactors
  rw [h]
  simp only [if_true, List.foldr_append, List.foldr_cons, List.foldr_nil,
    insertFactor]
  exact foldr_insert_head _ _ [] (baseFactors_w_le d)

/-! ### Evaluation of the extremal snapshot `d8` -/

theorem d8_sf1 : sf1v d8 = some 260 := by
  have hp : parseFiO2 (some 1) = some 1 := by
    norm_num [parseFiO2]
  show calcSF (some 260) (some 1) = some 260
  unfold calcSF
  rw [hp]
  norm_num

theorem d8_drr : drrv d8 = some (-50) := by
  show pctChange (some 50) (some 100) = some (-50)
  rw [pctChange]
  norm_num

theorem d8_dhr : dhrv d8 = some (-20) := by
  show pctChange (some 80) (some 100) = some (-20)
  rw [pctChange]
  norm_num

theorem d8_age : ageMv d8 = some 24 := by
  show toMonths (some 24) "months" = some 24
  rw [toMonths]
  rw [if_neg (by decide), if_neg (by decide)]

theorem d8_raw : rawScore d8 = 8 := by
  have harf : arfScore "type2" = 0 := by
    rw [arfScore, if_neg (by decide)]
  have hdg : diagScore "bronchiolitis" = 0 := by
    rw [diagScore, if_neg (by decide), if_neg (by decide)]
  have h1 : sfScore (sf1v d8) = 3 := by
    rw [d8_sf1, sfScore]
    norm_num
  have h2 : rrScore (drrv d8) = 2 := by
    rw [d8_drr, rrScore]
    norm_num
  have h3 : hrScore (dhrv d8) = 1 := by
    rw [d8_dhr, hrScore]
    norm_num
  have h4 : ageScore (ageMv d8) = 2 := by
    rw [d8_age, ageScore]
    norm_num
  show sfScore (sf1v d8) + rrScore (drrv d8) + hrScore (dhrv d8) +
    ageScore (ageMv d8) + arfScore "type2" + diagScore "bronchiolitis" +
    fio2Score none + prismScore none + ipapScore none +
    dpco2Score none + phScore none none = 8
  rw [h1, h2, h3, h4, harf, hdg]
  norm_num [fio2Score, prismScore, ipapScore, dpco2Score, phScore]

theorem d8_score : finalScore d8 = 8 := by
  have ht : totalScore d8 = 8 := by
    rw [totalScore, if_neg (by decide), d8_raw]
  rw [finalScore, ht]
  have hj : jsRound 8 = 8 := by
    rw [jsRound]
    norm_num
  rw [hj, clamp]
  decide

/-! ### The claims -/

/-- Claim C1: whenever at least one red flag is set, the running score is
floored at 85 — the override is `max(score, 85)`, not an assignment — so
the final score lies in [85, 100]. -/
theorem redflag_floor (d : Snapshot) (h : redFlags d = true) :
    (computeRisk d).score = clamp (jsRound (max (rawScore d) 85)) 0 100 ∧
    85 ≤ (computeRisk d).score ∧ (computeRisk d).score ≤ 100 := by
  have hts : totalScore d = max (rawScore d) 85 := by
    rw [totalScore, if_pos h]
  have h85 : (85 : ℚ) ≤ totalScore d := by
    rw [hts]
    exact le_max_right _ _
  have hj : (85 : ℤ) ≤ jsRound (totalScore d) := by
    refine le_jsRound 85 _ ?_
    push_cast
    linarith
  refine ⟨?_, ?_, (finalScore_bounds d).2⟩
  · show finalScore d = _
    rw [finalScore, hts]
  · show 85 ≤ finalScore d
    rw [finalScore, clamp]
    omega

/-- Witness for C1 at the concrete snapshot whose only red flag is
apnea. -/
theorem redflag_floor_witness :
    redFlags dRF = true ∧ 85 ≤ (computeRisk dRF).score :=
  ⟨rfl, (redflag_floor dRF rfl).2.1⟩

/-- Claim C2: for every snapshot the final score is the integer rounding
of the accumulated total, clamped to [0, 100], hence 0 ≤ score ≤ 100. -/
theorem score_in_range (d : Snapshot) :
    0 ≤ (computeRisk d).score ∧ (computeRisk d).score ≤ 100 ∧
    (computeRisk d).score = clamp (jsRound (totalScore d)) 0 100 :=
  ⟨(finalScore_bounds d).1, (finalScore_bounds d).2, rfl⟩

/-- Claim C5: tier and badge are a deterministic function of the final
score alone, by a first-match high-to-low partition at 85/65/45; the four
ranges cover every score with no gap or overlap. -/
theorem tier_partition :
    (∀ d : Snapshot,
      (computeRisk d).tier = (tierOf ((computeRisk d).score)).1 ∧
      (computeRisk d).badge = (tierOf ((computeRisk d).score)).2) ∧
    ∀ s : ℤ,
      (tierOf s = ("Muito alto", "ALTO RISCO") ↔ 85 ≤ s) ∧
      (tierOf s = ("Alto", "RISCO ↑") ↔ 65 ≤ s ∧ s < 85) ∧
      (tierOf s = ("Intermédio", "RISCO ↔") ↔ 45 ≤ s ∧ s < 65) ∧
      (tierOf s = ("Baixo", "RISCO ↓") ↔ s < 45) := by
  refine ⟨fun d => ⟨rfl, rfl⟩, fun s => ?_⟩
  rw [tierOf]
  split_ifs with h1 h2 h3 <;>
    refine ⟨?_, ?_, ?_, ?_⟩ <;> simp [Prod.ext_iff] <;> omega

/-- Claim C8: the four operational-criteria flags never change the
modelled assessment (derived metrics, score, tier, badge, factor list,
top factors); in the source they are read only when building the
explanation notes and the action list. -/
theorem operational_flags_noop (d : Snapshot) (a b c e : Bool) :
    computeRisk
      { d with cfHypox := a, cfWork := b, cfHypercap := c, cfIntol := e } =
    computeRisk d := rfl

/-- Claim C9: each of the four unconditionally scored blocks has a
strictly positive minimum (3, 2, 1 and 2 points), so every snapshot
scores at least 8; the bound is attained by the snapshot `d8`. -/
theorem score_min_eight :
    (∀ x : Option ℚ, 3 ≤ sfScore x) ∧ (∀ x : Option ℚ, 2 ≤ rrScore x) ∧
    (∀ x : Option ℚ, 1 ≤ hrScore x) ∧ (∀ x : Option ℚ, 2 ≤ ageScore x) ∧
    (∀ d : Snapshot, 8 ≤ (computeRisk d).score) ∧
    (computeRisk d8).score = 8 :=
  ⟨sfScore_ge, rrScore_ge, hrScore_ge, ageScore_ge,
    fun d => finalScore_lb d, d8_score⟩

/-! ### Evaluation of Scenario A -/

theorem toFixed0_150 : toFixed0 150 = "150" := by
  have hj : jsRound 150 = 150 := by
    rw [jsRound]
    norm_num
  rw [toFixed0, if_neg (by norm_num), hj]
  decide

theorem scenarioA_sf1 : sf1v scenarioA = some 150 := by
  have hp : parseFiO2 (some 60) = some (60 / 100) := by
    rw [parseFiO2, if_pos (by norm_num)]
  show calcSF (some 90) (some 60) = some 150
  unfold calcSF
  rw [hp]
  norm_num

theorem scenarioA_age : ageMv scenarioA = some 3 := by
  show toMonths (some 3) "months" = some 3
  rw [toMonths, if_neg (by decide), if_neg (by decide)]

theorem scenarioA_raw : rawScore scenarioA = 49 := by
  have harf : arfScore "type2" = 0 := by
    rw [arfScore, if_neg (by decide)]
  have hdg : diagScore "bronchiolitis" = 0 := by
    rw [diagScore, if_neg (by decide), if_neg (by decide)]
  have h1 : sfScore (sf1v scenarioA) = 30 := by
    rw [scenarioA_sf1, sfScore]
    norm_num
  have h4 : ageScore (ageMv scenarioA) = 10 := by
    rw [scenarioA_age, ageScore]
    norm_num
  show sfScore (sf1v scenarioA) + rrScore none + hrScore none +
    ageScore (ageMv scenarioA) + arfScore "type2" +
    diagScore "bronchiolitis" + fio2Score none + prismScore none +
    ipapScore none + dpco2Score none + phScore none none = 49
  rw [h1, h4, harf, hdg]
  norm_num [rrScore, hrScore, fio2Score, prismScore, ipapScore,
    dpco2Score, phScore]

theorem scenarioA_score : finalScore scenarioA = 49 := by
  have ht : totalScore scenarioA = 49 := by
    rw [totalScore, if_neg (by decide), scenarioA_raw]
  have hj : jsRound 49 = 49 := by
    rw [jsRound]
    norm_num
  rw [finalScore, ht, hj, clamp]
  decide

theorem scenarioA_factors :
    baseFactors scenarioA =
      [⟨30, "SF 1–2 h < 193 (SF=150)"⟩, ⟨10, "Idade < 6 meses"⟩] := by
  have hsf : sfFactors (sf1v scenarioA) =
      [⟨30, "SF 1–2 h < 193 (SF=150)"⟩] := by
    rw [scenarioA_sf1, sfFactors]
    rw [if_neg (by norm_num), if_pos (by norm_num), toFixed0_150]
    decide
  have hage : ageFactors (ageMv scenarioA) = [⟨10, "Idade < 6 meses"⟩] := by
    rw [scenarioA_age, ageFactors, if_pos (by norm_num)]
  show sfFactors (sf1v scenarioA) ++ rrFactors none ++
    ageFactors (ageMv scenarioA) ++ arfFactors "type2" ++
    diagFactors "bronchiolitis" = _
  rw [hsf, hage, rrFactors, arfFactors, diagFactors]
  rw [if_neg (by decide), if_neg (by decide), if_neg (by decide)]
  decide

/-- Counterexample to claim C3: in Scenario A the 1–2 h oxygenation
ratio is exactly 150, which does not satisfy the strict test `sf1 < 150`,
so the factor contributes 30 points (the `< 193` band), not 40. -/
theorem scenarioA_band_counterexample :
    calcSF (some 90) (some 60) = some 150 ∧ ¬ ((150 : ℚ) < 150) ∧
    sfScore (calcSF (some 90) (some 60)) = 30 := by
  have h : calcSF (some 90) (some 60) = some 150 := scenarioA_sf1
  refine ⟨h, by norm_num, ?_⟩
  rw [h, sfScore]
  norm_num

/-- Claim C3 as amended: in Scenario A the 1–2 h oxygenation ratio equals
exactly 150 and falls in the `< 193` band, contributing 30 points; the
accumulated score is 49 (30 + 10 age + 6 RR unknown + 3 HR unknown) and
the tier is "Intermédio". -/
theorem scenarioA_amended :
    (computeRisk scenarioA).sf1 = some 150 ∧
    sfScore (some 150) = 30 ∧
    Factor.mk 30 "SF 1–2 h < 193 (SF=150)" ∈ (computeRisk scenarioA).factors ∧
    (computeRisk scenarioA).score = 49 ∧
    (computeRisk scenarioA).tier = "Intermédio" := by
  refine ⟨scenarioA_sf1, ?_, ?_, scenarioA_score, ?_⟩
  · rw [sfScore]
    norm_num
  · show Factor.mk 30 "SF 1–2 h < 193 (SF=150)" ∈ allFactors scenarioA
    rw [allFactors, if_neg (by decide), scenarioA_factors]
    simp
  · show (tierOf (finalScore scenarioA)).1 = "Intermédio"
    rw [scenarioA_score, tierOf]
    rw [if_neg (by decide), if_neg (by decide), if_pos (by decide)]

theorem baseFactors_w_mem (d : Snapshot) :
    ∀ f ∈ baseFactors d,
      f.w = 40 ∨ f.w = 30 ∨ f.w = 18 ∨ f.w = 12 ∨ f.w = 10 ∨ f.w = 8 := by
  intro f hb
  simp only [baseFactors, List.mem_append] at hb
  rcases hb with ((((h | h) | h) | h) | h)
  · rcases sfFactors_w _ f h with h' | h' | h' | h' <;> rw [h'] <;> tauto
  · rcases rrFactors_w _ f h with h' | h' <;> rw [h'] <;> tauto
  · rw [ageFactors_w _ f h]
    tauto
  · rw [arfFactors_w _ f h]
    tauto
  · rcases diagFactors_w _ f h with h' | h' <;> rw [h'] <;> tauto

/-- Counterexample to claim C4: in the snapshot `dHR` the heart-rate
change is exactly 0, so the `≥ 0` band fires and adds 10 points, yet the
factor list stays empty — the heart-rate block never records a labeled
entry. -/
theorem hr_band_counterexample :
    (computeRisk dHR).dhrPct = some 0 ∧ hrScore (some 0) = 10 ∧
    (computeRisk dHR).factors = [] := by
  refine ⟨?_, ?_, rfl⟩
  · show pctChange (some 100) (some 100) = some 0
    rw [pctChange]
    norm_num
  · rw [hrScore]
    norm_num

/-- Claim C4 as amended: labeled entries are emitted only by the
oxygenation-ratio bands (40/30/18/10), the respiratory-rate bands ≥0
(+18) and >−10 (+12), the age <6 months band (+10), ARF type 1 (+10),
ARDS (+12), pneumonia (+8) and the red-flag override (+50); in
particular the heart-rate values never influence the factor list, and
every recorded weight is one of 50, 40, 30, 18, 12, 10, 8. -/
theorem factor_emitting_branches (d : Snapshot) :
    (computeRisk { d with hr_0 := none, hr_1 := none }).factors =
      (computeRisk d).factors ∧
    ∀ f ∈ (computeRisk d).factors,
      f.w = 50 ∨ f.w = 40 ∨ f.w = 30 ∨ f.w = 18 ∨ f.w = 12 ∨
        f.w = 10 ∨ f.w = 8 := by
  refine ⟨rfl, ?_⟩
  intro f hf
  have hf' : f ∈ allFactors d := hf
  rw [allFactors] at hf'
  split_ifs at hf' with hrf
  · rcases List.mem_append.mp hf' with hb | hred
    · have := baseFactors_w_mem d f hb
      tauto
    · left
      rw [List.mem_singleton.mp hred]
  · have := baseFactors_w_mem d f hf'
    tauto

/-- Witness for the amended C4 at the red-flag snapshot: the red-flag
entry is in the factor list and its weight is one of the emitted
weights. -/
theorem factor_emitting_branches_witness :
    Factor.mk 50 "Red flags clínicas" ∈ (computeRisk dRF).factors ∧
    ((50 : ℚ) = 50 ∨ (50 : ℚ) = 40 ∨ (50 : ℚ) = 30 ∨ (50 : ℚ) = 18 ∨
      (50 : ℚ) = 12 ∨ (50 : ℚ) = 10 ∨ (50 : ℚ) = 8) := by
  have hmem : Factor.mk 50 "Red flags clínicas" ∈ (computeRisk dRF).factors := by
    show Factor.mk 50 "Red flags clínicas" ∈ allFactors dRF
    rw [allFactors, if_pos (show redFlags dRF = true from rfl)]
    simp
  exact ⟨hmem, (factor_emitting_branches dRF).2 _ hmem⟩

theorem calcSF_none_left (f : Option ℚ) : calcSF none f = none := rfl

theorem calcSF_none_right (s : ℚ) (f : Option ℚ) (hf : parseFiO2 f = none) :
    calcSF (some s) f = none := by
  unfold calcSF
  rw [hf]

theorem calcSF_eval (s : ℚ) (f : Option ℚ) (v : ℚ)
    (hf : parseFiO2 f = some v) :
    calcSF (some s) f = if v ≤ 0 then none else some (s / v) := by
  unfold calcSF
  rw [hf]

theorem pctChange_eval (a b : ℚ) :
    pctChange (some a) (some b) =
      if b = 0 then none else some ((a - b) / b * 100) := rfl

/-- Claim C6: the oxygenation ratio is null exactly when the saturation
is null, the parsed oxygen fraction is null, or the parsed oxygen
fraction is ≤ 0; otherwise it is the saturation divided by the fraction.
`calcSF` is a total function, so no exception can occur. -/
theorem sf_null_iff (s f : Option ℚ) :
    (calcSF s f = none ↔
      s = none ∨ parseFiO2 f = none ∨
        ∃ v, parseFiO2 f = some v ∧ v ≤ 0) ∧
    (∀ x v, s = some x → parseFiO2 f = some v → ¬ v ≤ 0 →
      calcSF s f = some (x / v)) := by
  constructor
  · rcases s with _ | x
    · simp [calcSF_none_left]
    · rcases hf : parseFiO2 f with _ | v
      · simp [calcSF_none_right x f hf, hf]
      · rw [calcSF_eval x f v hf]
        split_ifs with hv
        · simp [hv]
        · simp [hv]
  · intro x v hx hv hnv
    subst hx
    rw [calcSF_eval x f v hv, if_neg hnv]

/-- Witness for C6: saturation 90 with oxygen input 40 (percent) yields
the ratio 90 / 0.40. -/
theorem sf_null_iff_witness :
    calcSF (some 90) (some 40) = some (90 / (40 / 100 : ℚ)) :=
  (sf_null_iff (some 90) (some 40)).2 90 (40 / 100)
    rfl (by rw [parseFiO2, if_pos (by norm_num)]) (by norm_num)

/-- Claim C7: the percent change is null exactly when an operand is null
or the old value is 0; otherwise it is (new − old) / old × 100, and for
an unchanged value it is exactly 0, which lands in the ≥ 0
respiratory-rate band worth 18 points with its labeled entry. -/
theorem pct_null_iff (a b : Option ℚ) :
    (pctChange a b = none ↔ a = none ∨ b = none ∨ b = some 0) ∧
    (∀ x y, a = some x → b = some y → y ≠ 0 →
      pctChange a b = some ((x - y) / y * 100)) ∧
    (∀ y : ℚ, y ≠ 0 →
      pctChange (some y) (some y) = some 0 ∧
      rrScore (pctChange (some y) (some y)) = 18 ∧
      rrFactors (pctChange (some y) (some y)) =
        [⟨18, "FR não melhorou / piorou"⟩]) := by
  refine ⟨?_, ?_, ?_⟩
  · rcases a with _ | x
    · simp [show pctChange none b = none from rfl]
    · rcases b with _ | y
      · simp [show pctChange (some x) none = none from rfl]
      · rw [pctChange_eval x y]
        split_ifs with hy
        · subst hy
          simp
        · simp [hy]
  · intro x y hx hy hynz
    subst hx
    subst hy
    rw [pctChange_eval x y, if_neg hynz]
  · intro y hy
    have h0 : pctChange (some y) (some y) = some 0 := by
      rw [pctChange_eval y y, if_neg hy]
      congr 1
      field_simp
    refine ⟨h0, ?_, ?_⟩
    · rw [h0, rrScore]
      norm_num
    · rw [h0, rrFactors]
      norm_num

/-- Witness for C7 at new = old = 7. -/
theorem pct_null_iff_witness :
    pctChange (some 7) (some 7) = some 0 ∧
    rrScore (pctChange (some (7 : ℚ)) (some 7)) = 18 := by
  have h := (pct_null_iff (some 7) (some 7)).2.2 7 (by norm_num)
  exact ⟨h.1, h.2.1⟩

/-- Claim C10: with any red flag set, the synthetic factor
(50, "Red flags clínicas") is appended to the factor list, every other
factor weighs at most 40, and the red-flag entry is ranked first among
the top factors. -/
theorem redflag_top_factor (d : Snapshot) (h : redFlags d = true) :
    (computeRisk d).factors =
      baseFactors d ++ [⟨50, "Red flags clínicas"⟩] ∧
    (∀ f ∈ baseFactors d, f.w ≤ 40) ∧
    (computeRisk d).topFactors.head? = some "Red flags clínicas" := by
  refine ⟨?_, baseFactors_w_le d, ?_⟩
  · show allFactors d = _
    rw [allFactors, if_pos h]
  · obtain ⟨rest, hrest⟩ := sortFactors_redflag_head d h
    show (((sortFactors (allFactors d)).take 3).map Factor.label).head? = _
    rw [hrest]
    rfl

/-- Witness for C10 at the concrete snapshot whose only red flag is
apnea. -/
theorem redflag_top_factor_witness :
    redFlags dRF = true ∧
    (computeRisk dRF).topFactors.head? = some "Red flags clínicas" :=
  ⟨rfl, (redflag_top_factor dRF rfl).2.2⟩

end VniPred
